import Mathlib

/-!
OpenAL game system (src/openal.cpp)

A shallow embedding of `COpenALGameSystem` and `COpenALUpdateThread`.

* The object state (`m_vSamples`, `m_alDevice`, `m_alContext`,
  `m_bInitialized`) is a record, threaded explicitly through every method.
* Everything the methods call outside src/openal.cpp (the OpenAL library, the
  engine, the thread base class, the samples) is an oracle in `Env`.  An oracle
  answers from the history of all interactions made so far, so an answer may
  depend on anything that happened before; every interaction, queries
  included, is appended to `World.log` in program order.
* `float` values are only stored and passed on by this file, never computed
  with, and are modelled as rationals.
* Pointers are `Option Nat`, `none` being `NULL`.
* `CUtlVector` is a list: `InsertBefore(0, x)` is cons, `Remove(i)` erases the
  element at index `i` and shifts its successors down by one, `RemoveAll()`
  empties it.
* Deleting the same sample pointer twice is undefined behaviour: `Shutdown`
  then has no result (`none`).
* The methods are modelled as run by one thread at a time, which is what
  `AUTO_LOCK_FM(m_vSamples)` provides for the registry.
-/

namespace OpenAL

/-- C `float`, see the module comment. -/
abbrev ALfloat := ℚ

/-- The value `AL_NO_ERROR`. -/
def AL_NO_ERROR : Nat := 0

/-- First argument of `alListenerfv` as used in this file. -/
inductive ALparam where
  | AL_POSITION
  | AL_ORIENTATION
  | AL_GAIN
  deriving DecidableEq, Repr

/-- The `Warning(...)` messages of openal.cpp, in source order. -/
inductive Warn where
  /-- Message: OpenAL: Device couldn't be properly opened. Initialization failed. -/
  | deviceOpen
  /-- Message: OpenAL: Couldn't create an OpenAL context. Initialization failed. -/
  | contextCreate
  /-- Message: OpenAL: Couldn't make the OpenAL context current. -/
  | contextCurrent
  /-- Message: OpenAL: Couldn't change gain? This could get loud... Continuing without regard. -/
  | initGain
  /-- Message: OpenAL: You need to update your audio drivers or OpenAL for sound to work properly. -/
  | speedOfSound
  /-- Message: OpenAL: Couldn't update the listener's position. -/
  | listenerPosition
  /-- Message: OpenAL: Couldn't update the listener's orientation. -/
  | listenerOrientation
  /-- Message: OpenAL: Couldn't properly set the listener's gain. -/
  | listenerGain
  deriving DecidableEq, Repr

/-- One interaction of openal.cpp with the outside, in the order the source
makes them. -/
inductive Ev where
  | alcOpenDevice (name : String)
  | alcCreateContext (device : Nat)
  | alGetError
  | alcMakeContextCurrent (context : Option Nat)
  | alListenerfv (param : ALparam) (values : List ALfloat)
  | alSpeedOfSound (value : ALfloat)
  | alcDestroyContext (context : Nat)
  | alcCloseDevice (device : Nat)
  | Warning (msg : Warn)
  | FindVar (name : String)
  | GetLocalPlayer
  | IsAlive
  | Start
  | CallWorker (call : Nat)
  | PeekCall
  | Reply (result : Nat)
  | curtime
  | IsReady (sample : Nat)
  | Update (sample : Nat) (updateTime : ALfloat)
  | IsFinished (sample : Nat)
  | delete (sample : Nat)
  deriving DecidableEq

/-- A `Vector` of the engine. -/
structure Vector where
  x : ALfloat
  y : ALfloat
  z : ALfloat
  deriving DecidableEq

/-- What `UpdateListener` reads from the local player. -/
structure Player where
  EarPosition : Vector
  EyeAngles : Vector

/-- The collaborators of openal.cpp.  Each oracle is asked with the history of
interactions so far.  The last two fields are constants declared in openal.h. -/
structure Env where
  alcOpenDevice : List Ev → Option Nat
  alcCreateContext : List Ev → Option Nat
  alGetError : List Ev → Nat
  /-- The value of `cvar->FindVar("volume")`: `none` when the pointer is NULL,
  otherwise what `GetFloat()` returns. -/
  FindVar : String → List Ev → Option ALfloat
  GetLocalPlayer : List Ev → Option Player
  /-- The engine function `AngleVectors`: forward, right, up. -/
  AngleVectors : Vector → Vector × Vector × Vector
  /-- The answer of `g_OpenALUpdateThread.IsAlive()`. -/
  IsAlive : List Ev → Bool
  /-- The answer of `PeekCall(&nCall)`: `none` when it returns false, otherwise `nCall`. -/
  PeekCall : List Ev → Option Nat
  /-- The value of `gpGlobals->curtime`. -/
  curtime : List Ev → ALfloat
  IsReady : Nat → List Ev → Bool
  IsFinished : Nat → List Ev → Bool
  /-- The enumerator `COpenALUpdateThread::EXIT`. -/
  EXIT : Nat
  valveSpeedOfSound : ALfloat

/-- The fields of `COpenALGameSystem` together with the interaction history. -/
structure World where
  m_vSamples : List (Option Nat)
  m_alDevice : Option Nat
  m_alContext : Option Nat
  m_bInitialized : Bool
  log : List Ev
  deriving DecidableEq

/-- Record one interaction. -/
def World.emit (w : World) (e : Ev) : World :=
  { w with log := w.log ++ [e] }

/-- The interactions made between world `w` and a later world `w2`. -/
def newEvents (w w2 : World) : List Ev :=
  w2.log.drop w.log.length

/-- The call `alGetError()`. -/
def alGetError (env : Env) (w : World) : Nat × World :=
  (env.alGetError w.log, w.emit Ev.alGetError)

/-- Emit a warning when the error code is not `AL_NO_ERROR`. -/
def warnIf (err : Nat) (msg : Warn) (w : World) : World :=
  if err ≠ AL_NO_ERROR then w.emit (Ev.Warning msg) else w

/-- `COpenALGameSystem::Add`. -/
def Add (sample : Option Nat) (w : World) : Bool × World :=
  (true, { w with m_vSamples := sample :: w.m_vSamples })

/-- The body of the loop of `UpdateSamples` at index `i`, followed by the
remaining iterations.  `none` means the iteration budget ran out. -/
def sweepLoop (env : Env) (updateTime : ALfloat) : Nat → Nat → World → Option World
  | 0, _, _ => none
  | fuel + 1, i, w =>
    if i < w.m_vSamples.length then
      match w.m_vSamples.getD i none with
      | some s =>
        let ready := env.IsReady s w.log
        let w1 := w.emit (Ev.IsReady s)
        let w2 := if ready then w1.emit (Ev.Update s updateTime) else w1
        let finished := env.IsFinished s w2.log
        let w3 := w2.emit (Ev.IsFinished s)
        let w4 := if finished then { w3 with m_vSamples := w3.m_vSamples.eraseIdx i } else w3
        sweepLoop env updateTime fuel (i + 1) w4
      | none =>
        sweepLoop env updateTime fuel (i + 1) { w with m_vSamples := w.m_vSamples.eraseIdx i }
    else
      some w

/-- `COpenALGameSystem::UpdateSamples`.  The loop runs at most `Count()`
iterations, so a budget of `Count() + 1` always suffices
(see `sweepLoop_returns`). -/
def UpdateSamples (env : Env) (updateTime : ALfloat) (w : World) : World :=
  match sweepLoop env updateTime (w.m_vSamples.length + 1) 0 w with
  | some w2 => w2
  | none => w

/-- The `if (localPlayer) ... else ...` block of `UpdateListener`: the arrays
`position` and `orientation`. -/
def listenerPose (env : Env) (localPlayer : Option Player) : List ALfloat × List ALfloat :=
  match localPlayer with
  | some pl =>
    let earPosition := pl.EarPosition
    let fru := env.AngleVectors pl.EyeAngles
    let fwd := fru.1
    let up := fru.2.2
    ([earPosition.x, earPosition.y, earPosition.z], [fwd.x, fwd.y, fwd.z, up.x, up.y, up.z])
  | none => ([0, 0, 0], [0, 0, -1, 0, 0, 0])

/-- `COpenALGameSystem::UpdateListener`.  The parameter `frametime` is not
used by the source. -/
def UpdateListener (env : Env) (_frametime : ALfloat) (w : World) : World :=
  let pVolume := env.FindVar "volume" w.log
  let w := w.emit (Ev.FindVar "volume")
  let gain : ALfloat := pVolume.getD 0
  let localPlayer := env.GetLocalPlayer w.log
  let w := w.emit Ev.GetLocalPlayer
  let po := listenerPose env localPlayer
  let w := w.emit (Ev.alListenerfv ALparam.AL_POSITION po.1)
  let ew := alGetError env w
  let w := warnIf ew.1 Warn.listenerPosition ew.2
  let w := w.emit (Ev.alListenerfv ALparam.AL_ORIENTATION po.2)
  let ew := alGetError env w
  let w := warnIf ew.1 Warn.listenerOrientation ew.2
  let w := w.emit (Ev.alListenerfv ALparam.AL_GAIN [gain])
  let ew := alGetError env w
  warnIf ew.1 Warn.listenerGain ew.2

/-- `COpenALGameSystem::Update`. -/
def Update (env : Env) (frametime : ALfloat) (w : World) : World :=
  UpdateListener env frametime w

/-- The end of `Init`: `if (!g_OpenALUpdateThread.IsAlive()) g_OpenALUpdateThread.Start();`. -/
def startWorker (env : Env) (w : World) : World :=
  let alive := env.IsAlive w.log
  let w := w.emit Ev.IsAlive
  if !alive then w.emit Ev.Start else w

/-- `COpenALGameSystem::Init`. -/
def Init (env : Env) (w : World) : Bool × World :=
  let gain : ALfloat := 0
  let dev := env.alcOpenDevice w.log
  let w := { w.emit (Ev.alcOpenDevice "Generic Hardware") with m_alDevice := dev }
  match w.m_alDevice with
  | none => (false, w.emit (Ev.Warning Warn.deviceOpen))
  | some d =>
    let ctx := env.alcCreateContext w.log
    let w := { w.emit (Ev.alcCreateContext d) with m_alContext := ctx }
    let ew := alGetError env w
    if ew.1 ≠ AL_NO_ERROR then (false, ew.2.emit (Ev.Warning Warn.contextCreate))
    else
      let w := ew.2.emit (Ev.alcMakeContextCurrent ew.2.m_alContext)
      let ew := alGetError env w
      if ew.1 ≠ AL_NO_ERROR then (false, ew.2.emit (Ev.Warning Warn.contextCurrent))
      else
        let w := ew.2.emit (Ev.alListenerfv ALparam.AL_GAIN [gain])
        let ew := alGetError env w
        let w := warnIf ew.1 Warn.initGain ew.2
        let w := w.emit (Ev.alSpeedOfSound env.valveSpeedOfSound)
        let ew := alGetError env w
        if ew.1 ≠ AL_NO_ERROR then (false, ew.2.emit (Ev.Warning Warn.speedOfSound))
        else
          let w := { ew.2 with m_bInitialized := true }
          let w := Update env (-1) w
          (true, startWorker env w)

/-- The statement `delete m_vSamples[i];` in the loop of `Shutdown`.
`deleted` holds the handles this loop has deleted so far.  Nothing happens
for a null pointer; deleting the same pointer a second time is undefined
behaviour, given as `none`.  The lifetime of a sample outside this loop is
not modelled. -/
def deleteSample (deleted : List Nat) (w : World) (p : Option Nat) :
    Option (List Nat × World) :=
  match p with
  | none => some (deleted, w)
  | some s => if s ∈ deleted then none else some (s :: deleted, w.emit (Ev.delete s))

/-- The first loop of `Shutdown`.  It does not change the vector, so it is a
left-to-right pass over its elements. -/
def deleteLoop : List (Option Nat) → List Nat → World → Option World
  | [], _, w => some w
  | p :: ps, deleted, w =>
    match deleteSample deleted w p with
    | none => none
    | some (deleted2, w2) => deleteLoop ps deleted2 w2

/-- `COpenALGameSystem::Shutdown`.  The result is `none` when the run has
undefined behaviour (a sample deleted twice). -/
def Shutdown (env : Env) (w : World) : Option World :=
  let alive := env.IsAlive w.log
  let w := w.emit Ev.IsAlive
  let w := if alive then w.emit (Ev.CallWorker env.EXIT) else w
  match deleteLoop w.m_vSamples [] w with
  | none => none
  | some w =>
    let w := { w with m_vSamples := [] }
    match w.m_alDevice with
    | some d =>
      let w := match w.m_alContext with
        | some c =>
          { (w.emit (Ev.alcMakeContextCurrent none)).emit (Ev.alcDestroyContext c) with
            m_alContext := none }
        | none => w
      some { w.emit (Ev.alcCloseDevice d) with m_alDevice := none }
    | none => some w

/-- One pass through the `while` loop of `COpenALUpdateThread::Run`, the loop
test included.  The first component tells whether the loop goes on. -/
def RunIter (env : Env) (w : World) : Bool × World :=
  let alive := env.IsAlive w.log
  let w := w.emit Ev.IsAlive
  if !alive then (false, w)
  else
    let call := env.PeekCall w.log
    let w := w.emit Ev.PeekCall
    if call = some env.EXIT then (false, w.emit (Ev.Reply 1))
    else
      let t := env.curtime w.log
      let w := w.emit Ev.curtime
      (true, UpdateSamples env t w)

/-- The first `n` passes of the loop of `COpenALUpdateThread::Run` (fewer when
the loop ends before).  The loop itself need not end. -/
def RunN (env : Env) : Nat → World → World
  | 0, w => w
  | n + 1, w =>
    match RunIter env w with
    | (true, w2) => RunN env n w2
    | (false, w2) => w2

/-- `COpenALUpdateThread::Run` with a bound on the number of passes of its
loop, which need not end: `some 0` with the final world when the loop is left
within `fuel` passes, `none` otherwise. -/
def Run (env : Env) : Nat → World → Option (Int × World)
  | 0, _ => none
  | fuel + 1, w =>
    match RunIter env w with
    | (true, w2) => Run env fuel w2
    | (false, w2) => some (0, w2)

/-- A call made on the game system while it runs. -/
inductive Op where
  | add (sample : Option Nat)
  | sweep (updateTime : ALfloat)

/-- Run a sequence of `Add` calls and `UpdateSamples` sweeps, in order. -/
def runOps (env : Env) : List Op → World → World
  | [], w => w
  | Op.add s :: ops, w => runOps env ops (Add s w).2
  | Op.sweep t :: ops, w => runOps env ops (UpdateSamples env t w)

/-- The state of the global `g_OpenALGameSystem` before any method ran:
static storage is zero-initialised and the constructor is empty. -/
def World.initial : World :=
  { m_vSamples := [], m_alDevice := none, m_alContext := none, m_bInitialized := false, log := [] }

/-- The sample handle of a `delete` interaction. -/
def Ev.deleted : Ev → Option Nat
  | Ev.delete s => some s
  | _ => none

/-- The interactions of one `Shutdown` that runs to its end, in order. -/
def shutdownEvents (env : Env) (w : World) : List Ev :=
  Ev.IsAlive :: (if env.IsAlive w.log then [Ev.CallWorker env.EXIT] else [])
    ++ w.m_vSamples.reduceOption.map Ev.delete
    ++ (match w.m_alDevice with
        | some d =>
          (match w.m_alContext with
            | some c => [Ev.alcMakeContextCurrent none, Ev.alcDestroyContext c]
            | none => []) ++ [Ev.alcCloseDevice d]
        | none => [])

/-- A world with device 1, context 2 and the registry `[1, NULL, 2]`. -/
def worldLive : World :=
  { World.initial with
    m_vSamples := [some 1, none, some 2], m_alDevice := some 1, m_alContext := some 2 }

/-- An environment in which no device opens, no call reports an error, there
is no player, the thread is not alive, and every sample is ready and never
finished. -/
def envQuiet : Env :=
  { alcOpenDevice := fun _ => none, alcCreateContext := fun _ => none, alGetError := fun _ => 0,
    FindVar := fun _ _ => none, GetLocalPlayer := fun _ => none,
    AngleVectors := fun v => (v, v, v), IsAlive := fun _ => false, PeekCall := fun _ => none,
    curtime := fun _ => 0, IsReady := fun _ _ => true, IsFinished := fun _ _ => false,
    EXIT := 1, valveSpeedOfSound := 0 }

/-- As `envQuiet`, but every sample reports finished. -/
def envDone : Env :=
  { envQuiet with IsFinished := fun _ _ => true }

/-- The arguments of an `alListenerfv` interaction. -/
def Ev.listenerCall : Ev → Option (ALparam × List ALfloat)
  | Ev.alListenerfv p v => some (p, v)
  | _ => none

/-- The time argument of a sample `Update` interaction. -/
def Ev.updateTime : Ev → Option ALfloat
  | Ev.Update _ t => some t
  | _ => none

/-- The warning interaction that follows an error code, if any. -/
def warnList (err : Nat) (msg : Warn) : List Ev :=
  if err ≠ AL_NO_ERROR then [Ev.Warning msg] else []

/-- The history at which `Init` asks for the error of `alcCreateContext`
when the device `d` was opened. -/
def initLogCreate (w : World) (d : Nat) : List Ev :=
  w.log ++ [Ev.alcOpenDevice "Generic Hardware", Ev.alcCreateContext d]

/-- The history at which `Init` asks for the error of `alcMakeContextCurrent`. -/
def initLogCurrent (env : Env) (w : World) (d : Nat) : List Ev :=
  initLogCreate w d ++ [Ev.alGetError, Ev.alcMakeContextCurrent
    (env.alcCreateContext (w.log ++ [Ev.alcOpenDevice "Generic Hardware"]))]

/-- The history at which `Init` asks for the error of the listener-gain call. -/
def initLogGain (env : Env) (w : World) (d : Nat) : List Ev :=
  initLogCurrent env w d ++ [Ev.alGetError, Ev.alListenerfv ALparam.AL_GAIN [0]]

/-- The history at which `Init` asks for the error of `alSpeedOfSound`. -/
def initLogSpeed (env : Env) (w : World) (d : Nat) : List Ev :=
  initLogGain env w d ++ [Ev.alGetError]
    ++ warnList (env.alGetError (initLogGain env w d)) Warn.initGain
    ++ [Ev.alSpeedOfSound env.valveSpeedOfSound]

/-- What `Init` itself tests before it returns true: the device pointer is
not NULL, and the error queries after context creation, after making the
context current and after setting the propagation speed all answer
`AL_NO_ERROR`.  The context pointer is not tested. -/
def InitChecksPass (env : Env) (w : World) : Prop :=
  match env.alcOpenDevice w.log with
  | none => False
  | some d =>
    env.alGetError (initLogCreate w d) = AL_NO_ERROR ∧
    env.alGetError (initLogCurrent env w d) = AL_NO_ERROR ∧
    env.alGetError (initLogSpeed env w d) = AL_NO_ERROR

instance (env : Env) (w : World) : Decidable (InitChecksPass env w) := by
  unfold InitChecksPass
  split <;> infer_instance

/-- The condition of the specification for `Init` to return true: the device
open succeeds (a device is returned), context creation succeeds (a context is
returned and no error is reported for the call), and making the context
current and setting the propagation speed succeed (no error is reported for
either call).  The listener-gain call is not part of it. -/
def InitSucceeds (env : Env) (w : World) : Prop :=
  match env.alcOpenDevice w.log with
  | none => False
  | some d =>
    env.alcCreateContext (w.log ++ [Ev.alcOpenDevice "Generic Hardware"]) ≠ none ∧
    env.alGetError (initLogCreate w d) = AL_NO_ERROR ∧
    env.alGetError (initLogCurrent env w d) = AL_NO_ERROR ∧
    env.alGetError (initLogSpeed env w d) = AL_NO_ERROR

instance (env : Env) (w : World) : Decidable (InitSucceeds env w) := by
  unfold InitSucceeds
  split <;> infer_instance

/-- The world in which `Init` performs its listener sync, when the device `d`
was opened and no fatal step failed. -/
def initSyncWorld (env : Env) (w : World) (d : Nat) : World :=
  { m_vSamples := w.m_vSamples, m_alDevice := some d,
    m_alContext := env.alcCreateContext (w.log ++ [Ev.alcOpenDevice "Generic Hardware"]),
    m_bInitialized := true, log := initLogSpeed env w d ++ [Ev.alGetError] }

/-- An environment in which the device 1 opens and the context 2 is created
without any error; the thread is not alive. -/
def envOk : Env :=
  { envQuiet with alcOpenDevice := fun _ => some 1, alcCreateContext := fun _ => some 2 }

/-- The device 1 opens, `alcCreateContext` returns NULL, and no error query
reports an error; the thread is not alive. -/
def envNullCtx : Env :=
  { envQuiet with alcOpenDevice := fun _ => some 1 }

/-- As `envOk`, but a context is only created the first time: every later
`alcCreateContext` returns NULL, still without any error reported. -/
def envLoseCtx : Env :=
  { envOk with
    alcCreateContext := fun l => if l.length ≤ 1 then some 2 else none }

/-- As `envOk`, but the device only opens on the very first interaction. -/
def envReopen : Env :=
  { envOk with alcOpenDevice := fun l => if l.isEmpty then some 1 else none }

/-- A running thread with no pending call; the clock reads 10 the first time
and 11 afterwards; samples are ready and never finished. -/
def envClock : Env :=
  { envQuiet with
    IsAlive := fun _ => true
    curtime := fun l => if l.contains Ev.curtime then 11 else 10 }

/-- As `envClock`, with the call `EXIT` pending. -/
def envExit : Env :=
  { envClock with PeekCall := fun _ => some 1 }

/-- A registry holding the single sample 0. -/
def worldOne : World :=
  { World.initial with m_vSamples := [some 0] }

/-- As `envDone`, but no sample is ready. -/
def envStale : Env :=
  { envDone with IsReady := fun _ _ => false }

/-! Theorems -/

theorem newEvents_append (w w2 : World) (evs : List Ev) (h : w2.log = w.log ++ evs) :
    newEvents w w2 = evs := by
  simp [newEvents, h]

theorem sweepLoop_returns_aux (env : Env) (t : ALfloat) :
    ∀ (fuel i : Nat) (w : World), w.m_vSamples.length - i < fuel →
      ∃ w2, sweepLoop env t fuel i w = some w2 := by
  intro fuel
  induction fuel with
  | zero => intro i w h; omega
  | succ n ih =>
    intro i w h
    unfold sweepLoop
    by_cases hi : i < w.m_vSamples.length
    · rw [if_pos hi]
      cases hs : w.m_vSamples.getD i none with
      | none =>
        apply ih
        simp only [List.length_eraseIdx, if_pos hi]
        omega
      | some s =>
        apply ih
        cases hr : env.IsReady s w.log <;>
          simp only [hr, if_true, if_false, Bool.false_eq_true] <;>
          split <;> simp [World.emit, List.length_eraseIdx, hi] <;> omega
    · rw [if_neg hi]
      exact ⟨w, rfl⟩

/-- The loop of `UpdateSamples` always ends within its budget: the sweep
returns, and `UpdateSamples` is its result. -/
theorem sweepLoop_returns (env : Env) (t : ALfloat) (w : World) :
    sweepLoop env t (w.m_vSamples.length + 1) 0 w = some (UpdateSamples env t w) := by
  obtain ⟨w2, h⟩ := sweepLoop_returns_aux env t (w.m_vSamples.length + 1) 0 w (by omega)
  simp [UpdateSamples, h]

theorem deleteLoop_eq (l : List (Option Nat)) :
    ∀ (deleted : List Nat) (w : World), (∀ s ∈ l.reduceOption, s ∉ deleted) →
      l.reduceOption.Nodup →
      deleteLoop l deleted w = some { w with log := w.log ++ l.reduceOption.map Ev.delete } := by
  induction l with
  | nil => intro deleted w _ _; simp [deleteLoop]
  | cons p l ih =>
    intro deleted w hd hn
    cases p with
    | none =>
      simp only [List.reduceOption_cons_of_none] at hd hn ⊢
      simpa [deleteLoop, deleteSample] using ih deleted w hd hn
    | some s =>
      simp only [List.reduceOption_cons_of_some, List.mem_cons, forall_eq_or_imp,
        List.nodup_cons] at hd hn
      have hrec := ih (s :: deleted) (w.emit (Ev.delete s))
        (fun t ht => by
          simp only [List.mem_cons, not_or]
          exact ⟨fun h => hn.1 (h ▸ ht), hd.2 t ht⟩)
        hn.2
      simp only [World.emit] at hrec
      simp [deleteLoop, deleteSample, hd.1, hrec, World.emit, List.reduceOption_cons_of_some]

/-- A `Shutdown` on a registry without a repeated handle runs to its end, and
this is the world it leaves. -/
theorem Shutdown_eq (env : Env) (w : World) (hnd : w.m_vSamples.reduceOption.Nodup) :
    Shutdown env w = some
      { m_vSamples := [], m_alDevice := none,
        m_alContext := (if w.m_alDevice = none then w.m_alContext else none),
        m_bInitialized := w.m_bInitialized, log := w.log ++ shutdownEvents env w } := by
  unfold Shutdown shutdownEvents
  cases hd : w.m_alDevice <;> cases hc : w.m_alContext <;> cases ha : env.IsAlive w.log <;>
    simp [World.emit, hd, hc, deleteLoop_eq _ _ _ (fun _ _ => List.not_mem_nil _) hnd]

theorem filterMap_deleted_map (l : List Nat) :
    l.filterMap (Ev.deleted ∘ Ev.delete) = l := by
  induction l with
  | nil => rfl
  | cons a l ih => simp [Ev.deleted, ih]

theorem count_delete_map (l : List Nat) (s : Nat) :
    (l.map Ev.delete).count (Ev.delete s) = l.count s := by
  induction l with
  | nil => rfl
  | cons a l ih =>
    by_cases h : a = s
    · subst h; simp [ih]
    · have h2 : Ev.delete a ≠ Ev.delete s := fun hc => h (Ev.delete.inj hc)
      simp [List.count_cons, ih, h, h2]

/-- C1: on the registry `[NULL, NULL]` one sweep returns with a null handle
still registered, and on a registry of two finished samples it returns with
the second one still registered and still reporting finished: the entry that
follows a removed slot moves into the index just visited and is never looked
at. -/
theorem UpdateSamples_leaves_null_and_finished :
    (UpdateSamples envQuiet 1 { World.initial with m_vSamples := [none, none] }).m_vSamples
        = [none] ∧
    (UpdateSamples envDone 1 { World.initial with m_vSamples := [some 1, some 2] }).m_vSamples
        = [some 2] ∧
    envDone.IsFinished 2
      (UpdateSamples envDone 1 { World.initial with m_vSamples := [some 1, some 2] }).log
        = true := by
  decide

/-- C2: on the registry `[NULL, 7]`, sample 7 being ready, one sweep removes
the null slot and returns without any interaction with sample 7: it is neither
asked `IsReady` nor advanced. -/
theorem UpdateSamples_skips_successor_of_removed :
    envQuiet.IsReady 7 [] = true ∧
    UpdateSamples envQuiet 1 { World.initial with m_vSamples := [none, some 7] }
      = { World.initial with m_vSamples := [some 7], log := [] } := by
  decide

/-- C3, as stated, fails: when the same handle was passed to `Add` twice, the
registry holds it twice and `Shutdown` deletes the same pointer a second time,
which is undefined behaviour: the claimed end state (each sample destroyed
once, registry empty) is not reached. -/
theorem Shutdown_double_delete_of_duplicate :
    (runOps envQuiet [Op.add (some 1), Op.add (some 1)] World.initial).m_vSamples
      = [some 1, some 1] ∧
    Shutdown envQuiet (runOps envQuiet [Op.add (some 1), Op.add (some 1)] World.initial)
      = none := by
  decide

/-- C3, amended: after any sequence of `Add` calls and sweeps that leaves no
handle twice in the registry, `Shutdown` runs to its end, deletes the non-null
registry entries one by one in registry order, every registered sample
exactly once, and leaves the registry empty. -/
theorem Shutdown_deletes_each_entry_once (env : Env) (ops : List Op) (w0 : World)
    (hnd : (runOps env ops w0).m_vSamples.reduceOption.Nodup) :
    ∃ w2 : World, Shutdown env (runOps env ops w0) = some w2 ∧
      w2.m_vSamples = [] ∧
      (newEvents (runOps env ops w0) w2).filterMap Ev.deleted
        = (runOps env ops w0).m_vSamples.reduceOption ∧
      ∀ s : Nat, some s ∈ (runOps env ops w0).m_vSamples →
        (newEvents (runOps env ops w0) w2).count (Ev.delete s) = 1 := by
  generalize runOps env ops w0 = w at hnd ⊢
  refine ⟨_, Shutdown_eq env w hnd, rfl, ?_, ?_⟩
  · rw [newEvents_append w _ _ rfl]
    unfold shutdownEvents
    cases hd : w.m_alDevice <;> cases hc : w.m_alContext <;> cases ha : env.IsAlive w.log <;>
      simp [List.filterMap_append, filterMap_deleted_map, Ev.deleted]
  · intro s hs
    have hone : w.m_vSamples.reduceOption.count s = 1 :=
      List.count_eq_one_of_mem hnd (List.reduceOption_mem_iff.mpr hs)
    rw [newEvents_append w _ _ rfl]
    unfold shutdownEvents
    cases hd : w.m_alDevice <;> cases hc : w.m_alContext <;> cases ha : env.IsAlive w.log <;>
      simp [List.count_cons, count_delete_map, hone]

/-- Witness: C3 amended, after `Add(1)`, `Add(NULL)`, `Add(2)` and one sweep. -/
theorem Shutdown_deletes_each_entry_once_witness :
    (runOps envQuiet [Op.add (some 1), Op.add none, Op.add (some 2), Op.sweep 1]
        World.initial).m_vSamples.reduceOption.Nodup ∧
    ∃ w2 : World,
      Shutdown envQuiet
          (runOps envQuiet [Op.add (some 1), Op.add none, Op.add (some 2), Op.sweep 1]
            World.initial) = some w2 ∧
      w2.m_vSamples = [] ∧
      (newEvents
          (runOps envQuiet [Op.add (some 1), Op.add none, Op.add (some 2), Op.sweep 1]
            World.initial) w2).filterMap Ev.deleted
        = (runOps envQuiet [Op.add (some 1), Op.add none, Op.add (some 2), Op.sweep 1]
            World.initial).m_vSamples.reduceOption ∧
      ∀ s : Nat,
        some s ∈ (runOps envQuiet [Op.add (some 1), Op.add none, Op.add (some 2), Op.sweep 1]
            World.initial).m_vSamples →
        (newEvents
            (runOps envQuiet [Op.add (some 1), Op.add none, Op.add (some 2), Op.sweep 1]
              World.initial) w2).count (Ev.delete s) = 1 :=
  ⟨by decide,
   Shutdown_deletes_each_entry_once envQuiet
     [Op.add (some 1), Op.add none, Op.add (some 2), Op.sweep 1] World.initial (by decide)⟩

/-- C7: `Add` returns true and puts the handle in front of the unchanged
registry: it is at index 0, the count grows by one, the earlier entries
follow in their order. -/
theorem Add_inserts_at_front (r : World) (s : Option Nat) :
    (Add s r).1 = true ∧
    (Add s r).2.m_vSamples = s :: r.m_vSamples ∧
    (Add s r).2.m_vSamples[0]? = some s ∧
    (Add s r).2.m_vSamples.length = r.m_vSamples.length + 1 ∧
    (Add s r).2.m_vSamples.tail = r.m_vSamples := by
  simp [Add]

theorem warnIf_eq (err : Nat) (msg : Warn) (w : World) :
    warnIf err msg w = { w with log := w.log ++ warnList err msg } := by
  unfold warnIf warnList
  split <;> simp [World.emit]

theorem UpdateListener_eq (env : Env) (frametime : ALfloat) (w : World) :
    ∃ e1 e2 e3 : Nat, UpdateListener env frametime w =
      { w with log := w.log ++
        ([Ev.FindVar "volume", Ev.GetLocalPlayer,
          Ev.alListenerfv ALparam.AL_POSITION
            (listenerPose env (env.GetLocalPlayer (w.log ++ [Ev.FindVar "volume"]))).1,
          Ev.alGetError] ++ warnList e1 Warn.listenerPosition ++
         [Ev.alListenerfv ALparam.AL_ORIENTATION
            (listenerPose env (env.GetLocalPlayer (w.log ++ [Ev.FindVar "volume"]))).2,
          Ev.alGetError] ++ warnList e2 Warn.listenerOrientation ++
         [Ev.alListenerfv ALparam.AL_GAIN [(env.FindVar "volume" w.log).getD 0],
          Ev.alGetError] ++ warnList e3 Warn.listenerGain) } := by
  unfold UpdateListener
  simp only [alGetError, warnIf_eq, World.emit]
  generalize env.alGetError _ = e3
  generalize env.alGetError _ = e2
  generalize env.alGetError _ = e1
  exact ⟨e3, e2, e1, by simp⟩

theorem filterMap_listenerCall_warnList (err : Nat) (msg : Warn) :
    (warnList err msg).filterMap Ev.listenerCall = [] := by
  unfold warnList
  split <;> simp [Ev.listenerCall]

theorem count_warnList (err : Nat) (msg : Warn) (e : Ev) (h : ∀ m, Ev.Warning m ≠ e) :
    (warnList err msg).count e = 0 := by
  unfold warnList
  split
  · simp [List.count_cons, h]
  · simp

/-- C8: whatever the error queries answer, one listener sync makes exactly
three `alListenerfv` calls: position, orientation, gain, in this order; and
without a local player the position is (0,0,0) and the orientation is forward
(0,0,-1), up (0,0,0). -/
theorem UpdateListener_calls (env : Env) (frametime : ALfloat) (w : World) :
    (newEvents w (UpdateListener env frametime w)).filterMap Ev.listenerCall
      = [(ALparam.AL_POSITION,
            (listenerPose env (env.GetLocalPlayer (w.log ++ [Ev.FindVar "volume"]))).1),
         (ALparam.AL_ORIENTATION,
            (listenerPose env (env.GetLocalPlayer (w.log ++ [Ev.FindVar "volume"]))).2),
         (ALparam.AL_GAIN, [(env.FindVar "volume" w.log).getD 0])] ∧
    (env.GetLocalPlayer (w.log ++ [Ev.FindVar "volume"]) = none →
      (newEvents w (UpdateListener env frametime w)).filterMap Ev.listenerCall
        = [(ALparam.AL_POSITION, [0, 0, 0]), (ALparam.AL_ORIENTATION, [0, 0, -1, 0, 0, 0]),
            (ALparam.AL_GAIN, [(env.FindVar "volume" w.log).getD 0])]) := by
  obtain ⟨e1, e2, e3, h⟩ := UpdateListener_eq env frametime w
  have hlog := congrArg World.log h
  simp only at hlog
  rw [newEvents_append w _ _ hlog]
  constructor
  · simp [List.filterMap_append, filterMap_listenerCall_warnList, Ev.listenerCall]
  · intro hp
    simp [List.filterMap_append, filterMap_listenerCall_warnList, Ev.listenerCall, hp,
      listenerPose]

/-- Witness: C8 at an environment without a local player. -/
theorem UpdateListener_calls_witness :
    envQuiet.GetLocalPlayer (World.initial.log ++ [Ev.FindVar "volume"]) = none ∧
    (newEvents World.initial (UpdateListener envQuiet 0 World.initial)).filterMap
        Ev.listenerCall
      = [(ALparam.AL_POSITION, [0, 0, 0]), (ALparam.AL_ORIENTATION, [0, 0, -1, 0, 0, 0]),
          (ALparam.AL_GAIN, [(envQuiet.FindVar "volume" World.initial.log).getD 0])] :=
  ⟨rfl, (UpdateListener_calls envQuiet 0 World.initial).2 rfl⟩

theorem Init_device_fail (env : Env) (w : World) (h : env.alcOpenDevice w.log = none) :
    Init env w = (false, { w with
      m_alDevice := none
      log := w.log ++ [Ev.alcOpenDevice "Generic Hardware", Ev.Warning Warn.deviceOpen] }) := by
  simp [Init, World.emit, h]

theorem Init_context_fail (env : Env) (w : World) (d : Nat)
    (hd : env.alcOpenDevice w.log = some d)
    (h1 : env.alGetError (initLogCreate w d) ≠ AL_NO_ERROR) :
    Init env w = (false, { w with
      m_alDevice := some d
      m_alContext := env.alcCreateContext (w.log ++ [Ev.alcOpenDevice "Generic Hardware"])
      log := initLogCreate w d ++ [Ev.alGetError, Ev.Warning Warn.contextCreate] }) := by
  simp only [initLogCreate] at h1
  simp [Init, World.emit, alGetError, hd, h1, initLogCreate]

theorem Init_current_fail (env : Env) (w : World) (d : Nat)
    (hd : env.alcOpenDevice w.log = some d)
    (h1 : env.alGetError (initLogCreate w d) = AL_NO_ERROR)
    (h2 : env.alGetError (initLogCurrent env w d) ≠ AL_NO_ERROR) :
    Init env w = (false, { w with
      m_alDevice := some d
      m_alContext := env.alcCreateContext (w.log ++ [Ev.alcOpenDevice "Generic Hardware"])
      log := initLogCurrent env w d ++ [Ev.alGetError, Ev.Warning Warn.contextCurrent] }) := by
  simp only [initLogCreate, initLogCurrent, List.append_assoc, List.cons_append,
    List.nil_append] at h1 h2
  simp [Init, World.emit, alGetError, hd, h1, h2, initLogCreate, initLogCurrent]

theorem Init_speed_fail (env : Env) (w : World) (d : Nat)
    (hd : env.alcOpenDevice w.log = some d)
    (h1 : env.alGetError (initLogCreate w d) = AL_NO_ERROR)
    (h2 : env.alGetError (initLogCurrent env w d) = AL_NO_ERROR)
    (h4 : env.alGetError (initLogSpeed env w d) ≠ AL_NO_ERROR) :
    Init env w = (false, { w with
      m_alDevice := some d
      m_alContext := env.alcCreateContext (w.log ++ [Ev.alcOpenDevice "Generic Hardware"])
      log := initLogSpeed env w d ++ [Ev.alGetError, Ev.Warning Warn.speedOfSound] }) := by
  simp only [initLogCreate, initLogCurrent, initLogGain, initLogSpeed, List.append_assoc,
    List.cons_append, List.nil_append] at h1 h2 h4
  simp [Init, World.emit, alGetError, warnIf_eq, hd, h1, h2, h4, initLogCreate, initLogCurrent,
    initLogGain, initLogSpeed]

theorem Init_ok (env : Env) (w : World) (d : Nat)
    (hd : env.alcOpenDevice w.log = some d)
    (h1 : env.alGetError (initLogCreate w d) = AL_NO_ERROR)
    (h2 : env.alGetError (initLogCurrent env w d) = AL_NO_ERROR)
    (h4 : env.alGetError (initLogSpeed env w d) = AL_NO_ERROR) :
    Init env w = (true, startWorker env (Update env (-1) (initSyncWorld env w d))) := by
  simp only [initLogCreate, initLogCurrent, initLogGain, initLogSpeed, List.append_assoc,
    List.cons_append, List.nil_append] at h1 h2 h4
  simp [Init, World.emit, alGetError, warnIf_eq, hd, h1, h2, h4, initLogCreate, initLogCurrent,
    initLogGain, initLogSpeed, initSyncWorld]

theorem initLogSpeed_eq (env : Env) (w : World) (d : Nat) :
    initLogSpeed env w d = w.log ++
      ([Ev.alcOpenDevice "Generic Hardware", Ev.alcCreateContext d, Ev.alGetError,
        Ev.alcMakeContextCurrent
          (env.alcCreateContext (w.log ++ [Ev.alcOpenDevice "Generic Hardware"])),
        Ev.alGetError, Ev.alListenerfv ALparam.AL_GAIN [0], Ev.alGetError]
        ++ warnList (env.alGetError (initLogGain env w d)) Warn.initGain
        ++ [Ev.alSpeedOfSound env.valveSpeedOfSound]) := by
  simp [initLogSpeed, initLogGain, initLogCurrent, initLogCreate]

theorem startWorker_eq (env : Env) (w : World) :
    startWorker env w = { w with log := w.log ++
      (Ev.IsAlive :: (if env.IsAlive w.log then [] else [Ev.Start])) } := by
  unfold startWorker
  cases h : env.IsAlive w.log <;> simp [World.emit]

theorem Init_fail_facts (w w2 : World) (evs : List Ev) (hlog : w2.log = w.log ++ evs)
    (hb : w2.m_bInitialized = w.m_bInitialized)
    (h1 : evs.count Ev.GetLocalPlayer = 0) (h2 : evs.count Ev.Start = 0) :
    w2.m_bInitialized = w.m_bInitialized ∧
    (newEvents w w2).count Ev.GetLocalPlayer = 0 ∧ (newEvents w w2).count Ev.Start = 0 := by
  rw [newEvents_append w w2 evs hlog]
  exact ⟨hb, h1, h2⟩

theorem Init_sync_facts (env : Env) (w : World) (d : Nat) :
    (Update env (-1) (initSyncWorld env w d)).m_bInitialized = true ∧
    ∃ evs : List Ev, (Update env (-1) (initSyncWorld env w d)).log = w.log ++ evs ∧
      evs.count Ev.GetLocalPlayer = 1 ∧ evs.count Ev.Start = 0 := by
  obtain ⟨e1, e2, e3, hU⟩ := UpdateListener_eq env (-1) (initSyncWorld env w d)
  unfold Update
  rw [hU]
  refine ⟨rfl, ?_⟩
  apply Exists.intro
  refine ⟨?hlog, ?hg, ?hs⟩
  case hlog =>
    simp only [initSyncWorld, initLogSpeed_eq, List.append_assoc]
    rfl
  case hg => simp [List.count_cons, count_warnList]
  case hs => simp [List.count_cons, count_warnList]

/-- The outcome of `Init` in terms of what it tests. -/
theorem Init_outcome (env : Env) (w : World) :
    ((Init env w).1 = true ↔ InitChecksPass env w) ∧
    ((Init env w).1 = false →
      (Init env w).2.m_bInitialized = w.m_bInitialized ∧
      (newEvents w (Init env w).2).count Ev.GetLocalPlayer = 0 ∧
      (newEvents w (Init env w).2).count Ev.Start = 0) ∧
    ((Init env w).1 = true →
      (Init env w).2.m_bInitialized = true ∧
      (newEvents w (Init env w).2).count Ev.GetLocalPlayer = 1 ∧
      ∃ d : Nat, env.alcOpenDevice w.log = some d ∧
        (Init env w).2 = startWorker env (Update env (-1) (initSyncWorld env w d)) ∧
        (newEvents w (Init env w).2).count Ev.Start
          = (if env.IsAlive (Update env (-1) (initSyncWorld env w d)).log then 0 else 1)) := by
  cases hd : env.alcOpenDevice w.log with
  | none =>
    rw [Init_device_fail env w hd]
    refine ⟨?_, fun _ => ?_, fun h => by simp at h⟩
    · simp [InitChecksPass, hd]
    · exact Init_fail_facts _ _ _ rfl rfl (by simp [List.count_cons]) (by simp [List.count_cons])
  | some d =>
    by_cases h1 : env.alGetError (initLogCreate w d) = AL_NO_ERROR
    · by_cases h2 : env.alGetError (initLogCurrent env w d) = AL_NO_ERROR
      · by_cases h4 : env.alGetError (initLogSpeed env w d) = AL_NO_ERROR
        · rw [Init_ok env w d hd h1 h2 h4]
          obtain ⟨hUb, evs, hUlog, hUg, hUs⟩ := Init_sync_facts env w d
          have hlog : (startWorker env (Update env (-1) (initSyncWorld env w d))).log
              = w.log ++ (evs ++ (Ev.IsAlive ::
                (if env.IsAlive (Update env (-1) (initSyncWorld env w d)).log then []
                  else [Ev.Start]))) := by
            rw [startWorker_eq]
            simp [hUlog]
          refine ⟨?_, fun h => by simp at h, fun _ => ⟨?_, ?_, d, rfl, rfl, ?_⟩⟩
          · simp only [true_iff, InitChecksPass, hd]
            exact ⟨h1, h2, h4⟩
          · rw [startWorker_eq]
            exact hUb
          · rw [newEvents_append _ _ _ hlog, List.count_append, hUg]
            split <;> simp [List.count_cons]
          · rw [newEvents_append _ _ _ hlog, List.count_append, hUs]
            split <;> simp [List.count_cons]
        · rw [Init_speed_fail env w d hd h1 h2 h4]
          refine ⟨?_, fun _ => ?_, fun h => by simp at h⟩
          · simp [InitChecksPass, hd, h4]
          · refine Init_fail_facts _ _ _ (by simp [initLogSpeed_eq]; rfl) rfl ?_ ?_ <;>
              simp [List.count_cons, count_warnList]
      · rw [Init_current_fail env w d hd h1 h2]
        refine ⟨?_, fun _ => ?_, fun h => by simp at h⟩
        · simp [InitChecksPass, hd, h2]
        · refine Init_fail_facts _ _ _
            (by simp [initLogCurrent, initLogCreate]; rfl) rfl ?_ ?_ <;>
            simp [List.count_cons]
    · rw [Init_context_fail env w d hd h1]
      refine ⟨?_, fun _ => ?_, fun h => by simp at h⟩
      · simp [InitChecksPass, hd, h1]
      · refine Init_fail_facts _ _ _ (by simp [initLogCreate]; rfl) rfl ?_ ?_ <;>
          simp [List.count_cons]

theorem InitChecksPass_of_InitSucceeds (env : Env) (w : World) (h : InitSucceeds env w) :
    InitChecksPass env w := by
  unfold InitSucceeds at h
  unfold InitChecksPass
  cases hd : env.alcOpenDevice w.log with
  | none => simp [hd] at h
  | some d =>
    simp only [hd] at h
    exact h.2

/-- C6, as stated, fails: when `alcCreateContext` returns NULL and no error
is reported, on a first `Init` or on a second one, context creation has not
succeeded and yet `Init` returns true, with a null `m_alContext`; and after a
successful `Init`, an `Init` that returns false leaves `m_bInitialized` true. -/
theorem Init_true_with_null_context :
    (¬ InitSucceeds envNullCtx World.initial ∧
      (Init envNullCtx World.initial).1 = true ∧
      (Init envNullCtx World.initial).2.m_alContext = none) ∧
    (¬ InitSucceeds envLoseCtx (Init envLoseCtx World.initial).2 ∧
      (Init envLoseCtx (Init envLoseCtx World.initial).2).1 = true ∧
      (Init envLoseCtx (Init envLoseCtx World.initial).2).2.m_alContext = none) ∧
    ((Init envReopen (Init envReopen World.initial).2).1 = false ∧
      (Init envReopen (Init envReopen World.initial).2).2.m_bInitialized = true) := by
  decide

/-- C6, amended: `Init` returns true whenever the device open, context
creation, making the context current and setting the propagation speed all
succeed, whatever the listener-gain call reports; and it returns true only if
the device opened and the error queries after context creation, after making
the context current and after setting the propagation speed all report no
error.  When it returns false, `m_bInitialized` keeps the value it had, no
listener sync was made and the thread was not started.  When it returns true,
`m_bInitialized` is set, exactly one listener sync was made, by `Update(-1)`,
and after it the thread was started if and only if it did not report alive. -/
theorem Init_true_of_success_only_if_checks (env : Env) (w : World) :
    (InitSucceeds env w → (Init env w).1 = true) ∧
    ((Init env w).1 = true → InitChecksPass env w) ∧
    ((Init env w).1 = false →
      (Init env w).2.m_bInitialized = w.m_bInitialized ∧
      (newEvents w (Init env w).2).count Ev.GetLocalPlayer = 0 ∧
      (newEvents w (Init env w).2).count Ev.Start = 0) ∧
    ((Init env w).1 = true →
      (Init env w).2.m_bInitialized = true ∧
      (newEvents w (Init env w).2).count Ev.GetLocalPlayer = 1 ∧
      ∃ d : Nat, env.alcOpenDevice w.log = some d ∧
        (Init env w).2 = startWorker env (Update env (-1) (initSyncWorld env w d)) ∧
        (newEvents w (Init env w).2).count Ev.Start
          = (if env.IsAlive (Update env (-1) (initSyncWorld env w d)).log then 0 else 1)) :=
  ⟨fun h => (Init_outcome env w).1.mpr (InitChecksPass_of_InitSucceeds env w h),
   (Init_outcome env w).1.mp, (Init_outcome env w).2.1, (Init_outcome env w).2.2⟩

/-- Witness: C6 amended, at an environment in which every step succeeds, and
at one in which the device does not open. -/
theorem Init_true_of_success_only_if_checks_witness :
    (InitSucceeds envOk World.initial ∧
      (Init envOk World.initial).1 = true ∧
      InitChecksPass envOk World.initial ∧
      (Init envOk World.initial).2.m_bInitialized = true ∧
      (newEvents World.initial (Init envOk World.initial).2).count Ev.GetLocalPlayer = 1) ∧
    ((Init envQuiet World.initial).1 = false ∧
      (Init envQuiet World.initial).2.m_bInitialized = World.initial.m_bInitialized ∧
      (newEvents World.initial (Init envQuiet World.initial).2).count Ev.GetLocalPlayer = 0 ∧
      (newEvents World.initial (Init envQuiet World.initial).2).count Ev.Start = 0) :=
  ⟨⟨by decide,
    (Init_true_of_success_only_if_checks envOk World.initial).1 (by decide),
    (Init_true_of_success_only_if_checks envOk World.initial).2.1 (by decide),
    ((Init_true_of_success_only_if_checks envOk World.initial).2.2.2 (by decide)).1,
    ((Init_true_of_success_only_if_checks envOk World.initial).2.2.2 (by decide)).2.1⟩,
   ⟨by decide,
    (Init_true_of_success_only_if_checks envQuiet World.initial).2.2.1 (by decide)⟩⟩

theorem Init_context_needs_device (env : Env) (w : World) (h : w.m_alContext = none) :
    (Init env w).2.m_alDevice = none → (Init env w).2.m_alContext = none := by
  cases hd : env.alcOpenDevice w.log with
  | none =>
    rw [Init_device_fail env w hd]
    intro _
    exact h
  | some d =>
    by_cases h1 : env.alGetError (initLogCreate w d) = AL_NO_ERROR
    · by_cases h2 : env.alGetError (initLogCurrent env w d) = AL_NO_ERROR
      · by_cases h4 : env.alGetError (initLogSpeed env w d) = AL_NO_ERROR
        · rw [Init_ok env w d hd h1 h2 h4, startWorker_eq]
          obtain ⟨e1, e2, e3, hU⟩ := UpdateListener_eq env (-1) (initSyncWorld env w d)
          unfold Update
          rw [hU]
          simp [initSyncWorld]
        · rw [Init_speed_fail env w d hd h1 h2 h4]
          simp
      · rw [Init_current_fail env w d hd h1 h2]
        simp
    · rw [Init_context_fail env w d hd h1]
      simp

theorem Init_m_vSamples (env : Env) (w : World) :
    (Init env w).2.m_vSamples = w.m_vSamples := by
  cases hd : env.alcOpenDevice w.log with
  | none => rw [Init_device_fail env w hd]
  | some d =>
    by_cases h1 : env.alGetError (initLogCreate w d) = AL_NO_ERROR
    · by_cases h2 : env.alGetError (initLogCurrent env w d) = AL_NO_ERROR
      · by_cases h4 : env.alGetError (initLogSpeed env w d) = AL_NO_ERROR
        · rw [Init_ok env w d hd h1 h2 h4, startWorker_eq]
          obtain ⟨e1, e2, e3, hU⟩ := UpdateListener_eq env (-1) (initSyncWorld env w d)
          unfold Update
          rw [hU]
          simp [initSyncWorld]
        · rw [Init_speed_fail env w d hd h1 h2 h4]
      · rw [Init_current_fail env w d hd h1 h2]
    · rw [Init_context_fail env w d hd h1]

/-- C4, as stated, fails: after a successful `Init`, a second `Init` whose
device open fails leaves a null device with the earlier context, and
`Shutdown` in that state leaves the context non-null; and in a state whose
registry holds the same handle twice, `Shutdown` deletes that pointer a
second time, which is undefined behaviour, so no end state is reached. -/
theorem Shutdown_keeps_context_without_device :
    (Init envReopen World.initial).1 = true ∧
    (Init envReopen (Init envReopen World.initial).2).1 = false ∧
    (Shutdown envReopen (Init envReopen (Init envReopen World.initial).2).2).map
        World.m_alContext = some (some 2) ∧
    Shutdown envQuiet { World.initial with m_vSamples := [some 1, some 1] } = none := by
  decide

/-- C4, amended: in every state whose registry holds no handle twice, one
`Shutdown` runs to its end and leaves the registry empty and the device null;
the context is null as well, except that a context held without a device is
left as it is (which is not the case before any `Init`, nor after a first
`Init`, failed or not).  A second `Shutdown` right after it runs to its end
too and only asks `IsAlive` (and calls the worker if it answers alive): it
deletes no sample, makes no `alcDestroyContext` and no `alcCloseDevice` call,
and leaves the registry, the device and the context as they are. -/
theorem Shutdown_twice (env : Env) (w : World) (hnd : w.m_vSamples.reduceOption.Nodup) :
    ∃ w1 w2 : World, Shutdown env w = some w1 ∧ Shutdown env w1 = some w2 ∧
      w1.m_vSamples = [] ∧
      w1.m_alDevice = none ∧
      w1.m_alContext = (if w.m_alDevice = none then w.m_alContext else none) ∧
      (Shutdown env World.initial).map World.m_alContext = some none ∧
      (Shutdown env (Init env World.initial).2).map World.m_alContext = some none ∧
      w2.m_vSamples = w1.m_vSamples ∧
      w2.m_alDevice = w1.m_alDevice ∧
      w2.m_alContext = w1.m_alContext ∧
      newEvents w1 w2
        = Ev.IsAlive :: (if env.IsAlive w1.log then [Ev.CallWorker env.EXIT] else []) := by
  refine ⟨_, _, Shutdown_eq env w hnd, Shutdown_eq env _ List.nodup_nil,
    rfl, rfl, rfl, ?_, ?_, rfl, rfl, rfl, ?_⟩
  · rw [Shutdown_eq env World.initial List.nodup_nil]
    rfl
  · have hreg : (Init env World.initial).2.m_vSamples.reduceOption.Nodup := by
      rw [Init_m_vSamples]
      exact List.nodup_nil
    rw [Shutdown_eq env _ hreg]
    simp only [Option.map_some', Option.some.injEq]
    split
    · next hn => exact Init_context_needs_device env World.initial rfl hn
    · rfl
  · apply newEvents_append
    simp [shutdownEvents]

/-- Witness: C4 amended, at a state with device 1, context 2 and the registry
`[1, NULL, 2]`. -/
theorem Shutdown_twice_witness :
    worldLive.m_vSamples.reduceOption.Nodup ∧
    ∃ w1 w2 : World, Shutdown envQuiet worldLive = some w1 ∧
      Shutdown envQuiet w1 = some w2 ∧
      w1.m_vSamples = [] ∧
      w1.m_alDevice = none ∧
      w1.m_alContext = (if worldLive.m_alDevice = none then worldLive.m_alContext else none) ∧
      (Shutdown envQuiet World.initial).map World.m_alContext = some none ∧
      (Shutdown envQuiet (Init envQuiet World.initial).2).map World.m_alContext = some none ∧
      w2.m_vSamples = w1.m_vSamples ∧
      w2.m_alDevice = w1.m_alDevice ∧
      w2.m_alContext = w1.m_alContext ∧
      newEvents w1 w2
        = Ev.IsAlive ::
            (if envQuiet.IsAlive w1.log then [Ev.CallWorker envQuiet.EXIT] else []) :=
  ⟨by decide, Shutdown_twice envQuiet worldLive (by decide)⟩

/-- C9: a sweep over a registry holding one non-null sample asks `IsReady`,
advances the sample once if it is ready, and then asks `IsFinished`.  A ready
sample that does not report finished is advanced exactly once and stays
registered; a sample that reports finished is removed, after having been
advanced once if it was ready, and the registry is then empty. -/
theorem UpdateSamples_single_sample (env : Env) (updateTime : ALfloat) (w : World) (s : Nat)
    (h : w.m_vSamples = [some s]) :
    (env.IsReady s w.log = true →
      env.IsFinished s (w.log ++ [Ev.IsReady s, Ev.Update s updateTime]) = false →
      newEvents w (UpdateSamples env updateTime w)
        = [Ev.IsReady s, Ev.Update s updateTime, Ev.IsFinished s] ∧
      (UpdateSamples env updateTime w).m_vSamples = w.m_vSamples) ∧
    (env.IsReady s w.log = true →
      env.IsFinished s (w.log ++ [Ev.IsReady s, Ev.Update s updateTime]) = true →
      newEvents w (UpdateSamples env updateTime w)
        = [Ev.IsReady s, Ev.Update s updateTime, Ev.IsFinished s] ∧
      (UpdateSamples env updateTime w).m_vSamples = [] ∧
      (UpdateSamples env updateTime w).m_vSamples.length + 1 = w.m_vSamples.length) ∧
    (env.IsReady s w.log = false →
      env.IsFinished s (w.log ++ [Ev.IsReady s]) = true →
      newEvents w (UpdateSamples env updateTime w) = [Ev.IsReady s, Ev.IsFinished s] ∧
      (UpdateSamples env updateTime w).m_vSamples = [] ∧
      (UpdateSamples env updateTime w).m_vSamples.length + 1 = w.m_vSamples.length) := by
  refine ⟨fun hr hf => ?_, fun hr hf => ?_, fun hr hf => ?_⟩ <;>
    simp only [List.append_assoc, List.cons_append, List.nil_append] at hf <;>
    simp [UpdateSamples, sweepLoop, h, hr, hf, World.emit, newEvents]

/-- Witness: C9 on the registry holding sample 0, for a ready unfinished
sample, a ready finished sample and a finished sample that is not ready. -/
theorem UpdateSamples_single_sample_witness :
    (newEvents worldOne (UpdateSamples envQuiet 5 worldOne)
        = [Ev.IsReady 0, Ev.Update 0 5, Ev.IsFinished 0] ∧
      (UpdateSamples envQuiet 5 worldOne).m_vSamples = worldOne.m_vSamples) ∧
    (newEvents worldOne (UpdateSamples envDone 5 worldOne)
        = [Ev.IsReady 0, Ev.Update 0 5, Ev.IsFinished 0] ∧
      (UpdateSamples envDone 5 worldOne).m_vSamples = [] ∧
      (UpdateSamples envDone 5 worldOne).m_vSamples.length + 1 = worldOne.m_vSamples.length) ∧
    (newEvents worldOne (UpdateSamples envStale 5 worldOne)
        = [Ev.IsReady 0, Ev.IsFinished 0] ∧
      (UpdateSamples envStale 5 worldOne).m_vSamples = [] ∧
      (UpdateSamples envStale 5 worldOne).m_vSamples.length + 1 = worldOne.m_vSamples.length) :=
  ⟨(UpdateSamples_single_sample envQuiet 5 worldOne 0 rfl).1 rfl rfl,
   (UpdateSamples_single_sample envDone 5 worldOne 0 rfl).2.1 rfl rfl,
   (UpdateSamples_single_sample envStale 5 worldOne 0 rfl).2.2 rfl rfl⟩

/-- C10, as stated, fails: in two passes of the loop with the clock reading 10
and then 11, the sample is advanced by 10 and then by 11, the clock readings
themselves, while the time elapsed between the two sweeps is 1. -/
theorem Run_passes_clock_reading :
    envClock.curtime [] = 10 ∧
    envClock.curtime (RunIter envClock worldOne).2.log = 11 ∧
    (RunN envClock 2 worldOne).log.filterMap Ev.updateTime = [10, 11] ∧
    (RunN envClock 2 worldOne).log.filterMap Ev.updateTime ≠ [10, 11 - 10] := by
  have h : (RunN envClock 2 worldOne).log.filterMap Ev.updateTime = [10, 11] := by decide
  refine ⟨by decide, by decide, h, ?_⟩
  rw [h]
  norm_num

/-- C10, amended: a pass of the worker loop in which the thread is alive and
the pending call is not `EXIT` (or no call is pending) performs exactly one
sweep, and the value passed to `UpdateSamples` is `gpGlobals->curtime` as read
in that pass, the current time; a pass in which the pending call is `EXIT`
replies 1 and leaves the loop without a sweep. -/
theorem RunIter_sweeps_once_with_curtime (env : Env) (w : World) :
    (env.IsAlive w.log = true →
      env.PeekCall (w.log ++ [Ev.IsAlive]) ≠ some env.EXIT →
      RunIter env w = (true,
        UpdateSamples env (env.curtime (w.log ++ [Ev.IsAlive, Ev.PeekCall]))
          { w with log := w.log ++ [Ev.IsAlive, Ev.PeekCall, Ev.curtime] })) ∧
    (env.IsAlive w.log = true →
      env.PeekCall (w.log ++ [Ev.IsAlive]) = some env.EXIT →
      RunIter env w = (false,
        { w with log := w.log ++ [Ev.IsAlive, Ev.PeekCall, Ev.Reply 1] }) ∧
      ∀ fuel : Nat, Run env (fuel + 1) w = some (0,
        { w with log := w.log ++ [Ev.IsAlive, Ev.PeekCall, Ev.Reply 1] })) := by
  constructor
  · intro ha hp
    simp [RunIter, World.emit, ha, hp]
  · intro ha hp
    have hi : RunIter env w = (false,
        { w with log := w.log ++ [Ev.IsAlive, Ev.PeekCall, Ev.Reply 1] }) := by
      simp [RunIter, World.emit, ha, hp]
    refine ⟨hi, fun fuel => ?_⟩
    simp [Run, hi]

/-- Witness: C10 amended, at a running thread with no pending call and at one
with `EXIT` pending. -/
theorem RunIter_sweeps_once_with_curtime_witness :
    RunIter envClock worldOne = (true,
      UpdateSamples envClock (envClock.curtime (worldOne.log ++ [Ev.IsAlive, Ev.PeekCall]))
        { worldOne with log := worldOne.log ++ [Ev.IsAlive, Ev.PeekCall, Ev.curtime] }) ∧
    RunIter envExit worldOne = (false,
      { worldOne with log := worldOne.log ++ [Ev.IsAlive, Ev.PeekCall, Ev.Reply 1] }) ∧
    Run envExit 1 worldOne = some (0,
      { worldOne with log := worldOne.log ++ [Ev.IsAlive, Ev.PeekCall, Ev.Reply 1] }) :=
  ⟨(RunIter_sweeps_once_with_curtime envClock worldOne).1 rfl (by decide),
   ((RunIter_sweeps_once_with_curtime envExit worldOne).2 rfl rfl).1,
   ((RunIter_sweeps_once_with_curtime envExit worldOne).2 rfl rfl).2 0⟩
end OpenAL
